import Mathlib

/-!
# CPUID feature identification (`api/kernel/cpuid.hpp`)

A shallow embedding of the header: the enumeration `CPUID::Feature`, the name
table `feature_names` with its initializer list in source order, and the
`KVM_FEATURE_*` bit ids. The header only declares `detect_features`,
`detect_features_str`, `is_amd_cpu`, `is_intel_cpu`, `has_feature` and
`kvm_feature`; their bodies are modelled from the specification, over a raw
query primitive and a table of leaf descriptors that are parameters.
-/

namespace CPUID

/-- The enumeration `CPUID::Feature`, enumerators in declaration order. -/
inductive Feature where
  | SSE3
  | PCLMULQDQ
  | DTES64
  | MONITOR
  | DS_CPL
  | VMX
  | SMX
  | EST
  | TM2
  | SSSE3
  | CNXT_ID
  | FMA
  | CX16
  | XTPR
  | PDCM
  | PCID
  | DCA
  | SSE4_1
  | SSE4_2
  | X2APIC
  | MOVBE
  | POPCNT
  | TSC_DEADLINE
  | AES
  | XSAVE
  | OSXSAVE
  | AVX
  | F16C
  | RDRAND
  | FPU
  | VME
  | DE
  | PSE
  | TSC
  | MSR
  | PAE
  | MCE
  | CX8
  | APIC
  | SEP
  | MTRR
  | PGE
  | MCA
  | CMOV
  | PAT
  | PSE_36
  | PSN
  | CLFLUSH
  | DS
  | ACPI
  | MMX
  | FXSR
  | SSE
  | SSE2
  | SS
  | HTT
  | TM
  | PBE
  | SYSCALL
  | NX
  | PDPE1GB
  | RDTSCP
  | LM
  | SVM
  | SSE4A
  | AVX2
  | BMI1
  | BMI2
  | LZCNT
  deriving DecidableEq, Repr, Fintype

/-- Every enumerator of `Feature`, in declaration order. -/
def Feature.all : List Feature :=
  [.SSE3, .PCLMULQDQ, .DTES64, .MONITOR, .DS_CPL, .VMX, .SMX,
   .EST, .TM2, .SSSE3, .CNXT_ID, .FMA, .CX16, .XTPR, .PDCM,
   .PCID, .DCA, .SSE4_1, .SSE4_2, .X2APIC, .MOVBE, .POPCNT, .TSC_DEADLINE,
   .AES, .XSAVE, .OSXSAVE, .AVX, .F16C, .RDRAND, .FPU, .VME,
   .DE, .PSE, .TSC, .MSR, .PAE, .MCE, .CX8, .APIC,
   .SEP, .MTRR, .PGE, .MCA, .CMOV, .PAT, .PSE_36, .PSN,
   .CLFLUSH, .DS, .ACPI, .MMX, .FXSR, .SSE, .SSE2, .SS,
   .HTT, .TM, .PBE, .SYSCALL, .NX, .PDPE1GB, .RDTSCP, .LM,
   .SVM, .SSE4A, .AVX2, .BMI1, .BMI2, .LZCNT]

/-- The spelling of each enumerator as written in the enumeration. -/
def Feature.spelling : Feature → String
  | .SSE3 => "SSE3"
  | .PCLMULQDQ => "PCLMULQDQ"
  | .DTES64 => "DTES64"
  | .MONITOR => "MONITOR"
  | .DS_CPL => "DS_CPL"
  | .VMX => "VMX"
  | .SMX => "SMX"
  | .EST => "EST"
  | .TM2 => "TM2"
  | .SSSE3 => "SSSE3"
  | .CNXT_ID => "CNXT_ID"
  | .FMA => "FMA"
  | .CX16 => "CX16"
  | .XTPR => "XTPR"
  | .PDCM => "PDCM"
  | .PCID => "PCID"
  | .DCA => "DCA"
  | .SSE4_1 => "SSE4_1"
  | .SSE4_2 => "SSE4_2"
  | .X2APIC => "X2APIC"
  | .MOVBE => "MOVBE"
  | .POPCNT => "POPCNT"
  | .TSC_DEADLINE => "TSC_DEADLINE"
  | .AES => "AES"
  | .XSAVE => "XSAVE"
  | .OSXSAVE => "OSXSAVE"
  | .AVX => "AVX"
  | .F16C => "F16C"
  | .RDRAND => "RDRAND"
  | .FPU => "FPU"
  | .VME => "VME"
  | .DE => "DE"
  | .PSE => "PSE"
  | .TSC => "TSC"
  | .MSR => "MSR"
  | .PAE => "PAE"
  | .MCE => "MCE"
  | .CX8 => "CX8"
  | .APIC => "APIC"
  | .SEP => "SEP"
  | .MTRR => "MTRR"
  | .PGE => "PGE"
  | .MCA => "MCA"
  | .CMOV => "CMOV"
  | .PAT => "PAT"
  | .PSE_36 => "PSE_36"
  | .PSN => "PSN"
  | .CLFLUSH => "CLFLUSH"
  | .DS => "DS"
  | .ACPI => "ACPI"
  | .MMX => "MMX"
  | .FXSR => "FXSR"
  | .SSE => "SSE"
  | .SSE2 => "SSE2"
  | .SS => "SS"
  | .HTT => "HTT"
  | .TM => "TM"
  | .PBE => "PBE"
  | .SYSCALL => "SYSCALL"
  | .NX => "NX"
  | .PDPE1GB => "PDPE1GB"
  | .RDTSCP => "RDTSCP"
  | .LM => "LM"
  | .SVM => "SVM"
  | .SSE4A => "SSE4A"
  | .AVX2 => "AVX2"
  | .BMI1 => "BMI1"
  | .BMI2 => "BMI2"
  | .LZCNT => "LZCNT"

/-- The initializer list of `feature_names`, entries in source order. -/
def feature_names_init : List (Feature × String) :=
  [(Feature.SSE2, "SSE2"),
   (Feature.SSE3, "SSE3"),
   (Feature.SSSE3, "SSSE3"),
   (Feature.RDRAND, "RDRAND"),
   (Feature.XSAVE, "XSAVE"),
   (Feature.FXSR, "FXSR"),
   (Feature.AES, "AES"),
   (Feature.AVX, "AVX"),
   (Feature.SSE4A, "SSE4a"),
   (Feature.SSE4_1, "SSE4.1"),
   (Feature.SSE4_2, "SSE4.2"),
   (Feature.NX, "NX"),
   (Feature.SYSCALL, "SYSCALL"),
   (Feature.PDPE1GB, "PDPE1GB"),
   (Feature.RDTSCP, "RDTSCP"),
   (Feature.FMA, "FMA"),
   (Feature.AVX2, "AVX2"),
   (Feature.BMI1, "BMI1"),
   (Feature.BMI2, "BMI2"),
   (Feature.LZCNT, "LZCNT"),
   (Feature.MOVBE, "MOVBE"),
   (Feature.PCLMULQDQ, "PCLMULQDQ"),
   (Feature.DTES64, "DTES64"),
   (Feature.MONITOR, "MONITOR"),
   (Feature.DS_CPL, "DS_CPL"),
   (Feature.VMX, "VMX"),
   (Feature.SMX, "SMX"),
   (Feature.EST, "EST"),
   (Feature.TM2, "TM2"),
   (Feature.CNXT_ID, "CNXT_ID"),
   (Feature.CX16, "CX16"),
   (Feature.XTPR, "XTPR"),
   (Feature.PDCM, "PDCM"),
   (Feature.PCID, "PCID"),
   (Feature.DCA, "DCA"),
   (Feature.X2APIC, "X2APIC"),
   (Feature.POPCNT, "POPCNT"),
   (Feature.TSC_DEADLINE, "TSC_DEADLINE"),
   (Feature.OSXSAVE, "OSXSAVE"),
   (Feature.F16C, "F16C"),
   (Feature.FPU, "FPU"),
   (Feature.VME, "VME"),
   (Feature.DE, "DE"),
   (Feature.PSE, "PSE"),
   (Feature.TSC, "TSC"),
   (Feature.MSR, "MSR"),
   (Feature.PAE, "PAE"),
   (Feature.MCE, "MCE"),
   (Feature.CX8, "CX8"),
   (Feature.APIC, "APIC"),
   (Feature.SEP, "SEP"),
   (Feature.MTRR, "MTRR"),
   (Feature.PGE, "PGE"),
   (Feature.MCA, "MCA"),
   (Feature.CMOV, "CMOV"),
   (Feature.PAT, "PAT"),
   (Feature.PSE_36, "PSE_36"),
   (Feature.PSN, "PSN"),
   (Feature.CLFLUSH, "CLFLUSH"),
   (Feature.DS, "DS"),
   (Feature.ACPI, "ACPI"),
   (Feature.MMX, "MMX"),
   (Feature.FXSR, "FXSR"),
   (Feature.SSE, "SSE"),
   (Feature.SS, "SS"),
   (Feature.HTT, "HTT"),
   (Feature.TM, "TM"),
   (Feature.NX, "NX"),
   (Feature.PDPE1GB, "PDPE1GB"),
   (Feature.RDTSCP, "RDTSCP"),
   (Feature.LM, "LM"),
   (Feature.SVM, "SVM")]

/-- The type `Feature_map` of the header, `std::unordered_map<Feature, const char*>`,
as an association list that holds each key at most once. Iteration order of the
hash table is not modelled; only membership and lookup are. -/
abbrev Feature_map := List (Feature × String)

/-- The type `Feature_list` of the header, `std::vector<Feature>`. -/
abbrev Feature_list := List Feature

/-- The type `Feature_names` of the header, `std::vector<const char*>`. -/
abbrev Feature_names := List String

/-- Membership test of a key, `unordered_map::count(f) != 0`. -/
def Feature_map.contains (m : Feature_map) (f : Feature) : Bool :=
  m.any (fun e => e.1 == f)

/-- Insertion as the range constructor of `unordered_map` does it: an entry whose
key is already present is dropped, so the first occurrence of a key wins. -/
def Feature_map.emplace (m : Feature_map) (e : Feature × String) : Feature_map :=
  if m.contains e.1 then m else m ++ [e]

/-- Insertion that overwrites the mapped value of a key already present, so the
last occurrence of a key wins (`insert_or_assign`). -/
def Feature_map.insert_or_assign (m : Feature_map) (e : Feature × String) : Feature_map :=
  if m.contains e.1 then m.map (fun x => if x.1 == e.1 then (x.1, e.2) else x) else m ++ [e]

/-- Lookup `unordered_map::at`: the mapped string, or `none` where the C++ call
throws `std::out_of_range`. -/
def Feature_map.find (m : Feature_map) (f : Feature) : Option String :=
  (List.find? (fun e => e.1 == f) m).map (fun e => e.2)

/-- The constant `feature_names`: the map built from the initializer list. -/
def feature_names : Feature_map :=
  feature_names_init.foldl Feature_map.emplace []

/-- The map the same initializer list gives when a repeated key overwrites. -/
def feature_names_last_wins : Feature_map :=
  feature_names_init.foldl Feature_map.insert_or_assign []

/-- The lookup `feature_names.at(f)`. -/
def feature_names_at (f : Feature) : Option String :=
  feature_names.find f

/-- The keys of the initializer list of `feature_names`, in source order. -/
def feature_names_keys : List Feature :=
  feature_names_init.map Prod.fst

/-- A display string turned into an identifier spelling: letters upper-cased and
every '.' replaced by '_'. -/
def enumerator_spelling_of (s : String) : String :=
  String.mk (s.data.map (fun c => if c = '.' then '_' else c.toUpper))

/-- The feature bit ids of the header's `KVM_FEATURE_*` constants. -/
def KVM_FEATURE_CLOCKSOURCE : Nat := 0
def KVM_FEATURE_NOP_IO_DELAY : Nat := 1
def KVM_FEATURE_MMU_OP : Nat := 2
def KVM_FEATURE_CLOCKSOURCE2 : Nat := 3
def KVM_FEATURE_ASYNC_PF : Nat := 4
def KVM_FEATURE_STEAL_TIME : Nat := 5
def KVM_FEATURE_PV_EOI : Nat := 6
def KVM_FEATURE_PV_UNHALT : Nat := 7
def KVM_FEATURE_CLOCKSOURCE_STABLE_BIT : Nat := 24

/-- The nine `KVM_FEATURE_*` constants, in the order the header defines them. -/
def kvm_feature_ids : List Nat :=
  [KVM_FEATURE_CLOCKSOURCE, KVM_FEATURE_NOP_IO_DELAY, KVM_FEATURE_MMU_OP,
   KVM_FEATURE_CLOCKSOURCE2, KVM_FEATURE_ASYNC_PF, KVM_FEATURE_STEAL_TIME,
   KVM_FEATURE_PV_EOI, KVM_FEATURE_PV_UNHALT, KVM_FEATURE_CLOCKSOURCE_STABLE_BIT]

/-- Reduction of a natural number to an unsigned 32-bit value. -/
def u32 (n : Nat) : Nat := n % 2 ^ 32

/-- Modelled from the spec: the Register Snapshot, the four output registers of one
invocation of the identification instruction. The header declares no such type;
each field is read through `u32`. -/
structure Registers where
  eax : Nat
  ebx : Nat
  ecx : Nat
  edx : Nat
  deriving DecidableEq, Repr

/-- Modelled from the spec: the Raw Query Primitive `execute_leaf(leaf, subleaf)`,
an external collaborator that the header does not declare. -/
abbrev Execute_leaf := Nat → Nat → Registers

/-- Modelled from the spec: the register selector of a Leaf Descriptor. -/
inductive Register where
  | EAX
  | EBX
  | ECX
  | EDX
  deriving DecidableEq, Repr

/-- Modelled from the spec: the Leaf Descriptor (leaf number, subleaf, register
selector, bit index) of one Feature Identifier. The table of descriptors is not
part of the header and is a parameter of the decoder. -/
structure Leaf_descriptor where
  leaf : Nat
  subleaf : Nat
  register : Register
  bit : Nat
  deriving DecidableEq, Repr

/-- Modelled from the spec: the value of the register a descriptor selects in a
snapshot, as an unsigned 32-bit number. -/
def Registers.select (regs : Registers) : Register → Nat
  | .EAX => u32 regs.eax
  | .EBX => u32 regs.ebx
  | .ECX => u32 regs.ecx
  | .EDX => u32 regs.edx

/-- Modelled from the spec: a result together with the (leaf, subleaf) pairs at
which the primitive was invoked to obtain it, oldest first, which is what a
fake primitive that records invoked leaves observes. -/
structure Traced (α : Type) where
  value : α
  invoked : List (Nat × Nat)

/-- Modelled from the spec: the first leaf of the extended range, 0x80000000. -/
def EXTENDED_LEAF_BASE : Nat := 0x80000000

/-- Modelled from the spec: the leaf whose `eax` reports the maximum supported leaf
for a descriptor at `leaf`: leaf 0, or 0x80000000 for the extended range. -/
def max_leaf_query (leaf : Nat) : Nat :=
  if EXTENDED_LEAF_BASE ≤ leaf then EXTENDED_LEAF_BASE else 0

/-- Modelled from the spec: the maximum supported leaf the processor reports for
the range `leaf` lies in. -/
def max_supported_leaf (execute_leaf : Execute_leaf) (leaf : Nat) : Nat :=
  u32 (execute_leaf (max_leaf_query leaf) 0).eax

/-- Modelled from the spec: the Feature Decoder `has_feature`, which the header only
declares (section 4.2). Step 1 looks the descriptor up, `none` being the
configuration error of an identifier without descriptor; step 2 reads the
maximum supported leaf and answers false when the descriptor's leaf exceeds it;
step 3 invokes the primitive at (leaf, subleaf) and tests the descriptor's bit
of the selected register. -/
def has_feature (table : Feature → Option Leaf_descriptor) (execute_leaf : Execute_leaf)
    (f : Feature) : Traced (Option Bool) :=
  match table f with
  | none => ⟨none, []⟩
  | some d =>
    let max_leaf := max_supported_leaf execute_leaf d.leaf
    if max_leaf < d.leaf then
      ⟨some false, [(max_leaf_query d.leaf, 0)]⟩
    else
      ⟨some (((execute_leaf d.leaf d.subleaf).select d.register).testBit d.bit),
        [(max_leaf_query d.leaf, 0), (d.leaf, d.subleaf)]⟩

/-- Modelled from the spec: the loop of the Aggregator over a list of identifiers,
calling the decoder on each and keeping those reported present; a
configuration error of the decoder aborts the run. -/
def detect_loop (decoder : Feature → Option Bool) : List Feature → Option Feature_list
  | [] => some []
  | f :: rest =>
    match decoder f with
    | none => none
    | some present =>
      match detect_loop decoder rest with
      | none => none
      | some found => some (if present then f :: found else found)

/-- Modelled from the spec: `detect_features`, which the header only declares
(section 4.3): the decoder run over the registry in declaration order. -/
def detect_features (decoder : Feature → Option Bool) : Option Feature_list :=
  detect_loop decoder Feature.all

/-- Modelled from the spec: the loop of `detect_features_str` over the detected
identifiers, appending the name-table lookup `names.at(f)` of each; `none` as
soon as one lookup fails. -/
def names_of (names : Feature_map) : Feature_list → Option Feature_names
  | [] => some []
  | f :: rest =>
    match names.find f with
    | none => none
    | some name =>
      match names_of names rest with
      | none => none
      | some tail => some (name :: tail)

/-- Modelled from the spec: `detect_features_str`, which the header only declares
(section 4.3): the name-table lookup applied to each element of
`detect_features`, in the same order; `none` when a lookup fails. -/
def detect_features_str (decoder : Feature → Option Bool) : Option Feature_names :=
  match detect_features decoder with
  | none => none
  | some found => names_of feature_names found

/-- Modelled from the spec: the leaf number of the paravirtualization feature
leaf, 0x40000001. -/
def KVM_CPUID_FEATURES : Nat := 0x40000001

/-- Modelled from the spec: `kvm_feature`, which the header only declares
(section 4.4): one query of leaf 0x40000001, whose `eax` is masked with
bit `id`. -/
def kvm_feature (execute_leaf : Execute_leaf) (id : Nat) : Bool :=
  (u32 (execute_leaf KVM_CPUID_FEATURES 0).eax &&& u32 (1 <<< id)) != 0

/-- Modelled from the spec: the four bytes of a 32-bit register value, least
significant first. -/
def register_bytes (r : Nat) : List Nat :=
  [u32 r % 256, u32 r / 256 % 256, u32 r / 65536 % 256, u32 r / 16777216 % 256]

/-- Modelled from the spec: the vendor string (section 4.1), the twelve bytes of
`ebx`, `edx`, `ecx` of leaf 0 in that order. -/
def vendor_string (execute_leaf : Execute_leaf) : String :=
  let regs := execute_leaf 0 0
  String.mk ((register_bytes regs.ebx ++ register_bytes regs.edx
    ++ register_bytes regs.ecx).map Char.ofNat)

/-- Modelled from the spec: the fixed AMD vendor string. -/
def AMD_VENDOR : String := "AuthenticAMD"

/-- Modelled from the spec: the fixed Intel vendor string. -/
def INTEL_VENDOR : String := "GenuineIntel"

/-- Modelled from the spec: the comparison of a vendor string with the fixed AMD
vendor string. -/
def is_amd_vendor (v : String) : Bool :=
  v == AMD_VENDOR

/-- Modelled from the spec: the comparison of a vendor string with the fixed Intel
vendor string. -/
def is_intel_vendor (v : String) : Bool :=
  v == INTEL_VENDOR

/-- Modelled from the spec: `is_amd_cpu`, which the header only declares
(section 4.1): the vendor string of leaf 0 compared with the AMD string. -/
def is_amd_cpu (execute_leaf : Execute_leaf) : Bool :=
  is_amd_vendor (vendor_string execute_leaf)

/-- Modelled from the spec: `is_intel_cpu`, which the header only declares
(section 4.1): the vendor string of leaf 0 compared with the Intel string. -/
def is_intel_cpu (execute_leaf : Execute_leaf) : Bool :=
  is_intel_vendor (vendor_string execute_leaf)

/-- A processor whose leaf 0 holds the given `ebx`, `edx`, `ecx` and nothing else. -/
def leaf0_processor (ebx edx ecx : Nat) : Execute_leaf :=
  fun leaf _ => if leaf = 0 then ⟨0, ebx, ecx, edx⟩ else ⟨0, 0, 0, 0⟩

/-- A processor whose every leaf returns the same `eax` and zero elsewhere. -/
def eax_processor (eax : Nat) : Execute_leaf :=
  fun _ _ => ⟨eax, 0, 0, 0⟩

/-- A processor whose every register of every leaf has all 32 bits set. -/
def all_ones_processor : Execute_leaf :=
  fun _ _ => ⟨0xFFFFFFFF, 0xFFFFFFFF, 0xFFFFFFFF, 0xFFFFFFFF⟩

theorem Feature.mem_all (f : Feature) : f ∈ Feature.all := by
  revert f
  decide

theorem Feature.all_length : Feature.all.length = 69 := by decide

theorem Feature.all_nodup : Feature.all.Nodup := by decide

theorem feature_names_keys_unique : (feature_names.map Prod.fst).Nodup := by decide!

theorem names_of_cons_some (m : Feature_map) (f : Feature) (rest : Feature_list) (name : String)
    (h : m.find f = some name) :
    names_of m (f :: rest) = (names_of m rest).map (fun tail => name :: tail) := by
  rw [names_of, h]
  cases names_of m rest <;> rfl

theorem names_of_eq_some (m : Feature_map) (found : Feature_list)
    (h : ∀ f ∈ found, (m.find f).isSome) :
    ∃ names, names_of m found = some names ∧ names.length = found.length ∧
      ∀ i (hi : i < found.length), names[i]? = m.find (found.get ⟨i, hi⟩) := by
  induction found with
  | nil => exact ⟨[], rfl, rfl, fun i hi => absurd hi (Nat.not_lt_zero i)⟩
  | cons g rest ih =>
    obtain ⟨names, hn, hlen, hidx⟩ := ih (fun f hf => h f (List.mem_cons_of_mem g hf))
    have hg := h g (List.mem_cons_self g rest)
    obtain ⟨name, hname⟩ := Option.isSome_iff_exists.mp hg
    refine ⟨name :: names, ?_, ?_, ?_⟩
    · rw [names_of_cons_some m g rest name hname, hn]; rfl
    · simp only [List.length_cons, hlen]
    · intro i hi
      cases i with
      | zero =>
        rw [List.getElem?_cons_zero]
        exact hname.symm
      | succ j =>
        have hj : j < rest.length := Nat.lt_of_succ_lt_succ hi
        rw [List.getElem?_cons_succ]
        exact hidx j hj

theorem detect_loop_mem (decoder : Feature → Option Bool) (l : List Feature) (found : Feature_list)
    (h : detect_loop decoder l = some found) (f : Feature) :
    f ∈ found ↔ f ∈ l ∧ decoder f = some true := by
  induction l generalizing found with
  | nil =>
    simp [detect_loop] at h
    subst h
    simp
  | cons g rest ih =>
    simp only [detect_loop] at h
    cases hg : decoder g with
    | none => simp [hg] at h
    | some present =>
      cases hr : detect_loop decoder rest with
      | none => simp [hg, hr] at h
      | some found' =>
        simp only [hg, hr, Option.some.injEq] at h
        have ih' := ih found' hr
        subst h
        cases present with
        | true =>
          simp only [if_true, List.mem_cons, ih']
          constructor
          · rintro (h1 | h1)
            · subst h1; exact ⟨Or.inl rfl, hg⟩
            · exact ⟨Or.inr h1.1, h1.2⟩
          · rintro ⟨h1 | h1, h2⟩
            · exact Or.inl h1
            · exact Or.inr ⟨h1, h2⟩
        | false =>
          simp only [Bool.false_eq_true, if_false, List.mem_cons, ih']
          constructor
          · rintro ⟨h1, h2⟩; exact ⟨Or.inr h1, h2⟩
          · rintro ⟨h1 | h1, h2⟩
            · subst h1; rw [hg] at h2; cases h2
            · exact ⟨h1, h2⟩

theorem has_feature_all_ones (table : Feature → Option Leaf_descriptor) (f : Feature)
    (d : Leaf_descriptor) (hd : table f = some d) (hleaf : d.leaf < 2 ^ 32) (hbit : d.bit < 32) :
    (has_feature table all_ones_processor f).value = some true := by
  have hsel : ∀ r : Register, (all_ones_processor d.leaf d.subleaf).select r = 2 ^ 32 - 1 := by
    intro r
    cases r <;> rfl
  have hmax : max_supported_leaf all_ones_processor d.leaf = 2 ^ 32 - 1 := rfl
  have hnot : ¬ (2 ^ 32 - 1 < d.leaf) := by omega
  simp only [has_feature, hd, hmax, hsel, if_neg hnot]
  congr 1
  rw [Nat.testBit_two_pow_sub_one]
  simpa using hbit

/-- On a processor where the decoder does not report `PBE`, `detect_features_str`
returns a sequence as long as that of `detect_features` whose every element is
the name-table lookup of the identifier at the same index. -/
theorem detect_features_str_eq_some (decoder : Feature → Option Bool) (found : Feature_list)
    (hfound : detect_features decoder = some found) (hpbe : decoder Feature.PBE ≠ some true) :
    ∃ names, detect_features_str decoder = some names ∧ names.length = found.length ∧
      ∀ i (hi : i < found.length), names[i]? = feature_names_at (found.get ⟨i, hi⟩) := by
  have hall : ∀ f ∈ found, (feature_names.find f).isSome := by
    intro f hf
    have hdec := ((detect_loop_mem decoder Feature.all found hfound f).mp hf).2
    have hne : f ≠ Feature.PBE := by
      rintro rfl
      exact hpbe hdec
    have key : ∀ g : Feature, g ≠ Feature.PBE → (feature_names.find g).isSome = true := by
      decide!
    exact key f hne
  obtain ⟨names, hn, hlen, hidx⟩ := names_of_eq_some feature_names found hall
  refine ⟨names, ?_, hlen, hidx⟩
  unfold detect_features_str
  rw [hfound]
  exact hn

/-! ## The name table -/

/-- C1: the lookup `feature_names.at(f)` is not total over the 69 enumerators of
`Feature`: it fails for exactly one of them, `PBE`, which the initializer list
of `feature_names` leaves out; every other enumerator has an entry. -/
theorem feature_names_at_eq_none_iff :
    ∀ f : Feature, feature_names_at f = none ↔ f = Feature.PBE := by
  decide!

/-- C2: the list of keys of the initializer list of `feature_names` has duplicates;
`FXSR`, `NX`, `PDPE1GB` and `RDTSCP` occur twice each and every other key that
occurs does so once, 72 entries standing for 68 distinct keys. -/
theorem feature_names_keys_duplicates :
    ¬ feature_names_keys.Nodup ∧
    feature_names_keys.length = 72 ∧ feature_names_keys.dedup.length = 68 ∧
    feature_names_keys.count Feature.FXSR = 2 ∧ feature_names_keys.count Feature.NX = 2 ∧
    feature_names_keys.count Feature.PDPE1GB = 2 ∧
    feature_names_keys.count Feature.RDTSCP = 2 ∧
    ∀ f : Feature, 1 < feature_names_keys.count f ↔
      f ∈ [Feature.FXSR, Feature.NX, Feature.PDPE1GB, Feature.RDTSCP] := by
  decide!

/-- C3: names in the name table are unique: two distinct identifiers that both
have an entry in `feature_names` have different display strings. -/
theorem feature_names_at_injective (f g : Feature) (s t : String)
    (hf : feature_names_at f = some s) (hg : feature_names_at g = some t) (hne : f ≠ g) :
    s ≠ t := by
  have key : ∀ a b : Feature, a ≠ b → feature_names_at a ≠ none →
      feature_names_at a ≠ feature_names_at b := by
    decide!
  intro hst
  apply key f g hne
  · rw [hf]; exact Option.some_ne_none s
  · rw [hf, hg, hst]

/-- Instance of the above at `SSE2` and `SSE3`. -/
theorem feature_names_at_injective_witness :
    feature_names_at Feature.SSE2 = some "SSE2" ∧ feature_names_at Feature.SSE3 = some "SSE3" ∧
    Feature.SSE2 ≠ Feature.SSE3 ∧ "SSE2" ≠ "SSE3" :=
  have h1 : feature_names_at Feature.SSE2 = some "SSE2" := by decide!
  have h2 : feature_names_at Feature.SSE3 = some "SSE3" := by decide!
  have h3 : Feature.SSE2 ≠ Feature.SSE3 := by decide
  ⟨h1, h2, h3, feature_names_at_injective Feature.SSE2 Feature.SSE3 "SSE2" "SSE3" h1 h2 h3⟩

/-- C9: the repeated entries of the initializer list of `feature_names` are
redundant: any two entries with the same key carry the same display string, the
keys that occur more than once are `FXSR`, `NX`, `PDPE1GB` and `RDTSCP`, and the
map built with the first occurrence of a key winning equals the map built with
the last occurrence winning, so both give the same lookup. -/
theorem feature_names_duplicates_agree :
    (∀ e1 ∈ feature_names_init, ∀ e2 ∈ feature_names_init, e1.1 = e2.1 → e1.2 = e2.2) ∧
    (∀ f : Feature, 1 < feature_names_keys.count f ↔
      f ∈ [Feature.FXSR, Feature.NX, Feature.PDPE1GB, Feature.RDTSCP]) ∧
    feature_names = feature_names_last_wins ∧
    ∀ f : Feature, feature_names.find f = feature_names_last_wins.find f := by
  decide!

/-- C10: no entry of `feature_names` carries another identifier's name: for every
entry of the initializer list, upper-casing the display string and replacing
'.' by '_' gives the spelling of the entry's enumerator; the display string
differs from that spelling exactly for `SSE4A`, `SSE4_1` and `SSE4_2`, whose
strings are "SSE4a", "SSE4.1" and "SSE4.2"; `AVX2` and `RDRAND` map to "AVX2"
and "RDRAND". -/
theorem feature_names_spelling :
    (∀ e ∈ feature_names_init, enumerator_spelling_of e.2 = e.1.spelling) ∧
    (∀ e ∈ feature_names_init, e.2 ≠ e.1.spelling ↔
      e.1 ∈ [Feature.SSE4A, Feature.SSE4_1, Feature.SSE4_2]) ∧
    feature_names_at Feature.SSE4A = some "SSE4a" ∧
    feature_names_at Feature.SSE4_1 = some "SSE4.1" ∧
    feature_names_at Feature.SSE4_2 = some "SSE4.2" ∧
    feature_names_at Feature.AVX2 = some "AVX2" ∧
    feature_names_at Feature.RDRAND = some "RDRAND" := by
  decide!

/-! ## The hypervisor feature ids -/

/-- C8: each of the nine `KVM_FEATURE_*` ids lies in the range 0..24, hence is a
valid bit index of a 32-bit `eax`, and the nine ids are pairwise distinct. -/
theorem kvm_feature_ids_range :
    kvm_feature_ids.length = 9 ∧
    (∀ id ∈ kvm_feature_ids, 0 ≤ id ∧ id ≤ 24 ∧ id < 32) ∧
    kvm_feature_ids.Pairwise (fun a b => a ≠ b) := by
  decide

/-! ## The aggregator -/

/-- C6: for every `eax` the primitive returns at leaf 0x40000001 and every bit id
in 0..31, `kvm_feature id` is true if and only if bit `id` of `eax` is set;
the function is total, and when `eax` is 0 it reports false. -/
theorem kvm_feature_iff_bit (execute_leaf : Execute_leaf) (id : Nat) (hid : id ≤ 31) :
    (kvm_feature execute_leaf id = true ↔
      u32 (execute_leaf 0x40000001 0).eax / 2 ^ id % 2 = 1) ∧
    (u32 (execute_leaf 0x40000001 0).eax = 0 → kvm_feature execute_leaf id = false) := by
  have hpow : (2 : Nat) ^ id < 2 ^ 32 := Nat.pow_lt_pow_right (by decide) (by omega)
  have hmask : u32 (1 <<< id) = 2 ^ id := by
    unfold u32
    rw [Nat.one_shiftLeft, Nat.mod_eq_of_lt hpow]
  have hpos : 0 < 2 ^ id := Nat.two_pow_pos id
  have hiff : kvm_feature execute_leaf id = true ↔
      u32 (execute_leaf 0x40000001 0).eax / 2 ^ id % 2 = 1 := by
    unfold kvm_feature KVM_CPUID_FEATURES
    rw [hmask, Nat.and_two_pow, bne_iff_ne, Nat.testBit_to_div_mod]
    by_cases hb : u32 (execute_leaf 0x40000001 0).eax / 2 ^ id % 2 = 1
    · simp [hb, Nat.ne_of_gt hpos]
    · simp [hb]
  refine ⟨hiff, ?_⟩
  intro hzero
  cases hk : kvm_feature execute_leaf id with
  | false => rfl
  | true =>
    have := hiff.mp hk
    rw [hzero] at this
    simp at this

/-- Instances of the above with `eax = 0b101` and with `eax = 0`. -/
theorem kvm_feature_iff_bit_witness :
    kvm_feature (eax_processor 0b101) 0 = true ∧ kvm_feature (eax_processor 0b101) 2 = true ∧
    kvm_feature (eax_processor 0b101) 1 = false ∧ kvm_feature (eax_processor 0b101) 31 = false ∧
    kvm_feature (eax_processor 0) 31 = false :=
  ⟨(kvm_feature_iff_bit (eax_processor 0b101) 0 (by decide)).1.mpr (by decide),
   (kvm_feature_iff_bit (eax_processor 0b101) 2 (by decide)).1.mpr (by decide),
   by decide, by decide,
   (kvm_feature_iff_bit (eax_processor 0) 31 (by decide)).2 (by decide)⟩

/-! ## The vendor identifier -/

/-- C7: for every vendor string `v`, the AMD predicate is true iff `v` is the AMD
vendor string and the Intel predicate is true iff `v` is the Intel vendor
string; the two are never both true, and both are false for any third string.
On every processor whose leaf 0 decodes to `v`, a string of 12 characters,
`is_amd_cpu` and `is_intel_cpu` are these predicates of `v`. -/
theorem vendor_predicates (v : String) :
    (is_amd_vendor v = true ↔ v = "AuthenticAMD") ∧
    (is_intel_vendor v = true ↔ v = "GenuineIntel") ∧
    ¬ (is_amd_vendor v = true ∧ is_intel_vendor v = true) ∧
    (v ≠ "AuthenticAMD" ∧ v ≠ "GenuineIntel" →
      is_amd_vendor v = false ∧ is_intel_vendor v = false) ∧
    ∀ execute_leaf : Execute_leaf, vendor_string execute_leaf = v →
      v.length = 12 ∧
      (is_amd_cpu execute_leaf = true ↔ v = "AuthenticAMD") ∧
      (is_intel_cpu execute_leaf = true ↔ v = "GenuineIntel") ∧
      ¬ (is_amd_cpu execute_leaf = true ∧ is_intel_cpu execute_leaf = true) := by
  have hamd : is_amd_vendor v = true ↔ v = "AuthenticAMD" := by
    unfold is_amd_vendor AMD_VENDOR
    exact beq_iff_eq
  have hintel : is_intel_vendor v = true ↔ v = "GenuineIntel" := by
    unfold is_intel_vendor INTEL_VENDOR
    exact beq_iff_eq
  have hexcl : ¬ (is_amd_vendor v = true ∧ is_intel_vendor v = true) := by
    rintro ⟨h1, h2⟩
    have h := (hamd.mp h1).symm.trans (hintel.mp h2)
    exact absurd h (by decide)
  refine ⟨hamd, hintel, hexcl, ?_, ?_⟩
  · rintro ⟨h1, h2⟩
    exact ⟨Bool.eq_false_iff.mpr (fun h => h1 (hamd.mp h)),
      Bool.eq_false_iff.mpr (fun h => h2 (hintel.mp h))⟩
  · intro execute_leaf hv
    subst hv
    refine ⟨?_, hamd, hintel, hexcl⟩
    simp [vendor_string, register_bytes, String.length]

/-- Instances of the above at the three literal vendor strings and at the register
values that spell the AMD and Intel strings. -/
theorem vendor_predicates_witness :
    (is_amd_vendor "AuthenticAMD" = true ∧ is_intel_vendor "AuthenticAMD" = false) ∧
    (is_amd_vendor "GenuineIntel" = false ∧ is_intel_vendor "GenuineIntel" = true) ∧
    (is_amd_vendor "BogusVendorXX" = false ∧ is_intel_vendor "BogusVendorXX" = false) ∧
    (is_amd_cpu (leaf0_processor 0x68747541 0x69746E65 0x444D4163) = true) ∧
    (is_intel_cpu (leaf0_processor 0x756E6547 0x49656E69 0x6C65746E) = true) :=
  have amd := vendor_predicates "AuthenticAMD"
  have intel := vendor_predicates "GenuineIntel"
  have bogus := vendor_predicates "BogusVendorXX"
  ⟨⟨amd.1.mpr rfl, Bool.eq_false_iff.mpr (fun h => amd.2.2.1 ⟨amd.1.mpr rfl, h⟩)⟩,
   ⟨Bool.eq_false_iff.mpr (fun h => intel.2.2.1 ⟨h, intel.2.1.mpr rfl⟩), intel.2.1.mpr rfl⟩,
   bogus.2.2.2.1 ⟨by decide, by decide⟩,
   ((amd.2.2.2.2 (leaf0_processor 0x68747541 0x69746E65 0x444D4163) (by decide)).2.1).mpr rfl,
   ((intel.2.2.2.2 (leaf0_processor 0x756E6547 0x49656E69 0x6C65746E) (by decide)).2.2.1).mpr rfl⟩

/-- No processor decodes to the 13-character string "BogusVendorXX"; the nearest
vendor string a leaf 0 can hold is its 12-character prefix, for which both
predicates are false as well. -/
theorem vendor_string_bogus :
    (∀ execute_leaf : Execute_leaf, vendor_string execute_leaf ≠ "BogusVendorXX") ∧
    vendor_string (leaf0_processor 0x75676F42 0x6E655673 0x58726F64) = "BogusVendorX" ∧
    is_amd_cpu (leaf0_processor 0x75676F42 0x6E655673 0x58726F64) = false ∧
    is_intel_cpu (leaf0_processor 0x75676F42 0x6E655673 0x58726F64) = false := by
  refine ⟨?_, by decide, by decide, by decide⟩
  intro execute_leaf h
  have hlen : (vendor_string execute_leaf).length = 12 := by
    simp [vendor_string, register_bytes, String.length]
  rw [h] at hlen
  exact absurd hlen (by decide)

end CPUID
